import Mathlib

/-!
Shallow embedding of `salesforce.py`: a small client wrapper around the
Salesforce REST API (class `Connection`).  The HTTP boundary is modelled by
scripts: a list of attempt outcomes (one per issued request) for GET/POST/PATCH,
and a list of JSON bodies (one per issued token-refresh POST).  Pure parts of
the code (URL construction, date formatting) are translated directly.
-/

namespace Salesforce

/-- JSON values as decoded by `response.json()` in the source. -/
inductive Json where
  | null
  | bool (b : Bool)
  | str (s : String)
  | num (n : Int)
  | arr (elems : List Json)
  | obj (fields : List (String × Json))
  deriving Repr

/-- Python truthiness of a decoded JSON value (`if response:` in the source):
`None`, `False`, `""`, `0`, `[]`, `{}` are falsy, everything else truthy. -/
def Json.truthy : Json → Bool
  | .null => false
  | .bool b => b
  | .str s => s ≠ ""
  | .num n => n ≠ 0
  | .arr elems => !elems.isEmpty
  | .obj fields => !fields.isEmpty

/-- Dictionary item lookup `d[key]` on a decoded JSON object; `none` models the
`KeyError` (or `TypeError` on a non-dict) the source would raise. -/
def Json.lookup : Json → String → Option Json
  | .obj fields, key => fields.lookup key
  | _, _ => none

/-- Key membership `key in d` for a decoded JSON object (`'nextRecordsUrl' in
response`, `'Id' in response` in the source). -/
def Json.hasKey (j : Json) (key : String) : Bool :=
  (j.lookup key).isSome

/-- Static fields of a `Connection`: instance URL, API version, object
endpoint, and the formatted date range computed at construction. -/
structure Conn where
  instance_url : String
  api_version : String
  obj_endpoint : String
  start_date : String
  end_date : String
  deriving Repr, DecidableEq

/-- Initial URL built by `query_recent_records` (source lines 41-44). -/
def recentRecordsUrl (c : Conn) : String :=
  c.instance_url ++ "/services/data/v" ++ c.api_version ++ "/sobjects/" ++
    c.obj_endpoint ++ "/updated/?start=" ++ c.start_date ++ "&end=" ++ c.end_date

/-- URL built by `query_single_object` (source line 114). -/
def singleObjectUrl (c : Conn) (salesforce_id : String) : String :=
  c.instance_url ++ "/services/data/v" ++ c.api_version ++ "/sobjects/" ++
    c.obj_endpoint ++ "/" ++ salesforce_id

/-- URL built by `create_sf_record` (source line 75). -/
def createUrl (c : Conn) : String :=
  c.instance_url ++ "/services/data/v" ++ c.api_version ++ "/sobjects/" ++
    c.obj_endpoint ++ "/"

/-- URL built by `update_sf_record` (source line 96). -/
def updateUrl (c : Conn) (salesforce_id : String) : String :=
  createUrl c ++ salesforce_id

/-- Result of one run of the `query_recent_records` pagination loop.  The loop
consumes one scripted `get_or_retry` result per iteration. -/
inductive QRResult where
  /-- Loop exited normally and the method returned `contacts`. -/
  | returns (contacts : List Json)
  /-- `MassUpdateException` raised (source line 55). -/
  | massUpdate
  /-- `KeyError`/`TypeError` from `response['ids']` on a truthy non-conforming
  page (source line 51). -/
  | pyError
  /-- The scripted response list was exhausted while the loop still had
  `more_records_to_pull = True`; the real code would issue another GET of
  `url` with accumulator `contacts` — it has not returned. -/
  | noMoreResponses (url : Json) (contacts : List Json)
  deriving Repr

/-- Body of the `while more_records_to_pull` loop of `query_recent_records`
(source lines 46-64).  `responses` scripts the value returned by each
successive `self.get_or_retry(url)` call (`none` = Python `None`). -/
def queryRecentRecordsAux : List (Option Json) → Json → List Json → QRResult
  | [], url, contacts => .noMoreResponses url contacts
  | none :: rest, url, contacts =>
      -- falsy response: nothing in the loop body runs, loop re-issues `url`
      queryRecentRecordsAux rest url contacts
  | some page :: rest, url, contacts =>
      if page.truthy then
        match page.lookup "ids" with
        | some (Json.arr ids) =>
            let contacts1 := contacts ++ ids
            if contacts1.length > 25000 then
              .massUpdate
            else
              match page.lookup "nextRecordsUrl" with
              | some nextUrl => queryRecentRecordsAux rest nextUrl contacts1
              | none => .returns contacts1
        | _ => .pyError
      else
        queryRecentRecordsAux rest url contacts

/-- `Connection.query_recent_records` (source lines 32-64): starts at the
window URL with an empty accumulator. -/
def queryRecentRecords (c : Conn) (responses : List (Option Json)) : QRResult :=
  queryRecentRecordsAux responses (Json.str (recentRecordsUrl c)) []

/-- Page served mid-pagination: `ids` plus, when `next` is set, a
`nextRecordsUrl` cursor pointing at `nextUrl`. -/
def mkPage (ids : List Json) (next : Bool) (nextUrl : String) : Json :=
  if next then
    Json.obj [("ids", Json.arr ids), ("nextRecordsUrl", Json.str nextUrl)]
  else
    Json.obj [("ids", Json.arr ids)]

/-- Chain of pages as the server would serve them: every page but the last
carries a `nextRecordsUrl` cursor, the last does not. -/
def mkPages : List (List Json) → List (Option Json)
  | [] => []
  | [ids] => [some (mkPage ids false "")]
  | ids :: rest => some (mkPage ids true "next") :: mkPages rest

/-- Outcome of `Connection._refresh_token` (source lines 155-171). -/
inductive RefreshOutcome where
  /-- `self.access_token` was assigned the value of `access_token` in the body. -/
  | ok
  /-- `r.json()['access_token']` raised `KeyError`; the assignment never ran. -/
  | keyError
  deriving Repr, DecidableEq

/-- `Connection._refresh_token` on a scripted response body: the assignment
`self.access_token = r.json()['access_token']` (source line 171) runs only if
the lookup succeeds; on `KeyError` the stored token is the old one.  Returns
the outcome together with the stored token after the call. -/
def refreshTokenRun (access_token : Json) (body : Json) : RefreshOutcome × Json :=
  match body.lookup "access_token" with
  | some newTok => (.ok, newTok)
  | none => (.keyError, access_token)

/-- Outcome of a single `requests.get` attempt inside `get_or_retry`, as the
scripted network serves it. -/
inductive HttpAttempt where
  /-- 2xx: `raise_for_status()` passes and `response.json()` is `body`. -/
  | success (body : Json)
  /-- `requests.exceptions.Timeout`. -/
  | timeout
  /-- `requests.exceptions.MissingSchema` (malformed URL). -/
  | missingSchema
  /-- `raise_for_status()` raised `HTTPError` with this status and body. -/
  | httpError (status : Nat) (body : Json)
  deriving Repr

/-- Mutable state threaded through a `get_or_retry` call: the stored
`access_token`, the scripted bodies remaining for token-refresh POSTs, the
number of `_refresh_token` calls made so far, and the `time.sleep` durations
performed so far. -/
structure GetState where
  access_token : Json
  refreshBodies : List Json
  refreshCalls : Nat
  sleeps : List Nat
  deriving Repr

/-- How a `get_or_retry` call ended. -/
inductive GetOutcome where
  /-- `return response.json()` (source line 135). -/
  | ok (body : Json)
  /-- Returned `None`: `MissingSchema` (line 145) or the `for` loop ended
  without a `return` (all three attempts got 401). -/
  | retNone
  /-- Re-raised the `Timeout` on the last attempt (line 139). -/
  | raiseTimeout
  /-- Re-raised a non-401 `HTTPError` (line 153). -/
  | raiseHTTPError (status : Nat)
  /-- `KeyError` propagated out of `_refresh_token` (line 171). -/
  | raiseKeyError
  /-- Model artifact: a scripted list (GET attempts or refresh bodies) ran out
  before the call ended. -/
  | noScript
  deriving Repr

/-- The `for n in range(max_retries)` loop of `get_or_retry` (source lines
127-153), with `max_retries = 3`, `wait` starting at 10 and `counter` at 1.
`attempts` scripts the outcome of each successive `requests.get`. -/
def getOrRetryGo (attempts : List HttpAttempt) (n wait counter : Nat)
    (s : GetState) : GetOutcome × GetState :=
  if 3 ≤ n then (.retNone, s)
  else
    match attempts with
    | [] => (.noScript, s)
    | .success body :: _ => (.ok body, s)
    | .timeout :: rest =>
        if n = 3 - 1 then (.raiseTimeout, s)
        else
          -- wait = wait ** counter; counter += 1; time.sleep(wait)
          let wait1 := wait ^ counter
          getOrRetryGo rest (n + 1) wait1 (counter + 1)
            { s with sleeps := s.sleeps ++ [wait1] }
    | .missingSchema :: _ => (.retNone, s)
    | .httpError status _body :: rest =>
        if status = 401 then
          match s.refreshBodies with
          | [] => (.noScript, s)
          | rb :: rbs =>
              match refreshTokenRun s.access_token rb with
              | (.ok, newTok) =>
                  -- token refreshed; the loop surfaces nothing and goes on
                  getOrRetryGo rest (n + 1) wait counter
                    { access_token := newTok, refreshBodies := rbs,
                      refreshCalls := s.refreshCalls + 1, sleeps := s.sleeps }
              | (.keyError, tok) =>
                  (.raiseKeyError,
                    { access_token := tok, refreshBodies := rbs,
                      refreshCalls := s.refreshCalls + 1, sleeps := s.sleeps })
        else (.raiseHTTPError status, s)

/-- `Connection.get_or_retry` (source lines 121-153).  The `url` argument is
carried for fidelity; the scripted `attempts` stand for the network's answers
to requests on it. -/
def get_or_retry (_url : String) (attempts : List HttpAttempt)
    (s : GetState) : GetOutcome × GetState :=
  getOrRetryGo attempts 0 10 1 s

/-- How a `query_single_object` call ended. -/
inductive QSOOutcome where
  /-- `return response` (source line 117). -/
  | found (record : Json)
  /-- `return None` (source line 119). -/
  | noRecord
  | raiseTimeout
  | raiseHTTPError (status : Nat)
  | raiseKeyError
  | noScript
  deriving Repr

/-- `Connection.query_single_object` (source lines 108-119): one
`get_or_retry` on the object URL, then `if response and 'Id' in response`. -/
def querySingleObject (c : Conn) (salesforce_id : String)
    (attempts : List HttpAttempt) (s : GetState) : QSOOutcome × GetState :=
  match get_or_retry (singleObjectUrl c salesforce_id) attempts s with
  | (.ok body, s1) =>
      if body.truthy && body.hasKey "Id" then (.found body, s1) else (.noRecord, s1)
  | (.retNone, s1) => (.noRecord, s1)
  | (.raiseTimeout, s1) => (.raiseTimeout, s1)
  | (.raiseHTTPError status, s1) => (.raiseHTTPError status, s1)
  | (.raiseKeyError, s1) => (.raiseKeyError, s1)
  | (.noScript, s1) => (.noScript, s1)

/-- Outcome of one `requests.post` / `requests.patch` attempt inside
`create_sf_record` / `update_sf_record`.  Those methods catch only `Timeout`;
an `HTTPError` from `raise_for_status()` propagates uncaught. -/
inductive PostAttempt where
  | success (body : Json)
  | timeout
  | httpError (status : Nat)
  deriving Repr

/-- How a `create_sf_record` call ended. -/
inductive CreateOutcome where
  /-- `return response.json()['success']` (source line 80). -/
  | returns (v : Json)
  /-- `response.json()['success']` raised `KeyError`. -/
  | raiseKeyError
  /-- Re-raised the `Timeout` on the last attempt (line 83). -/
  | raiseTimeout
  /-- `raise_for_status()` raised; nothing catches `HTTPError` here. -/
  | raiseHTTPError (status : Nat)
  | noScript
  deriving Repr

/-- The `for n in range(max_retries)` loop of `create_sf_record` (source lines
72-85): `max_retries = 3`, `wait` starts at 10; on a non-final timeout
`wait *= (n + 1); time.sleep(wait)`.  Also returns the sleep trace. -/
def createGo (attempts : List PostAttempt) (n wait : Nat)
    (sleeps : List Nat) : CreateOutcome × List Nat :=
  if 3 ≤ n then (.noScript, sleeps)
  else
    match attempts with
    | [] => (.noScript, sleeps)
    | .success body :: _ =>
        match body.lookup "success" with
        | some v => (.returns v, sleeps)
        | none => (.raiseKeyError, sleeps)
    | .timeout :: rest =>
        if n = 3 - 1 then (.raiseTimeout, sleeps)
        else
          let wait1 := wait * (n + 1)
          createGo rest (n + 1) wait1 (sleeps ++ [wait1])
    | .httpError status :: _ => (.raiseHTTPError status, sleeps)

/-- `Connection.create_sf_record` (source lines 66-85). -/
def createSfRecord (attempts : List PostAttempt) : CreateOutcome × List Nat :=
  createGo attempts 0 10 []

/-- How an `update_sf_record` call ended. -/
inductive UpdateOutcome where
  /-- `return True` (source line 101). -/
  | returnsTrue
  | raiseTimeout
  | raiseHTTPError (status : Nat)
  | noScript
  deriving Repr, DecidableEq

/-- The retry loop of `update_sf_record` (source lines 93-106): identical
retry/backoff shape to `create_sf_record`, but returns `True` on success. -/
def updateGo (attempts : List PostAttempt) (n wait : Nat)
    (sleeps : List Nat) : UpdateOutcome × List Nat :=
  if 3 ≤ n then (.noScript, sleeps)
  else
    match attempts with
    | [] => (.noScript, sleeps)
    | .success _ :: _ => (.returnsTrue, sleeps)
    | .timeout :: rest =>
        if n = 3 - 1 then (.raiseTimeout, sleeps)
        else
          let wait1 := wait * (n + 1)
          updateGo rest (n + 1) wait1 (sleeps ++ [wait1])
    | .httpError status :: _ => (.raiseHTTPError status, sleeps)

/-- `Connection.update_sf_record` (source lines 87-106). -/
def updateSfRecord (attempts : List PostAttempt) : UpdateOutcome × List Nat :=
  updateGo attempts 0 10 []

/-- Uppercase hexadecimal digit, as produced by Python's `'%02X' % i`. -/
def hexDigitChar (n : Nat) : Char :=
  if n < 10 then Char.ofNat (48 + n) else Char.ofNat (55 + n)

/-- Percent-escape of one byte, `'%' + '%02X' % ord(c)` (ASCII range). -/
def percentEncode (c : Char) : String :=
  String.mk ['%', hexDigitChar (c.toNat / 16 % 16), hexDigitChar (c.toNat % 16)]

/-- Characters Python 2's `urllib` never quotes (`always_safe`):
letters, digits, and `_ . -`. -/
def alwaysSafe (c : Char) : Bool :=
  c.isAlpha || c.isDigit || c == '_' || c == '.' || c == '-'

/-- `urllib.quote_plus` on one character: safe characters pass through, a
space becomes `+`, everything else is percent-escaped. -/
def quotePlusChar (c : Char) : String :=
  if alwaysSafe c then String.mk [c]
  else if c == ' ' then "+"
  else percentEncode c

/-- Python 2 `urllib.quote_plus` (called with its default empty `safe`). -/
def quote_plus (s : String) : String :=
  String.join (s.data.map quotePlusChar)

/-- `date.split('.', 1)[0]`: the prefix before the first `'.'`. -/
def splitDotHead (s : String) : String :=
  String.mk (s.data.takeWhile (fun c => c != '.'))

/-- `Connection._format_date` (source lines 185-193):
`urllib.quote_plus(date.split('.', 1)[0]) + 'Z'`. -/
def format_date (date : String) : String :=
  quote_plus (splitDotHead date) ++ "Z"

/-- Spec-side formatter, for comparison: the claim describes the output as the
seconds-precision ISO string with its separators percent-encoded (only `:` is
unsafe in such a string, encoded `%3A`) and a `Z` appended. -/
def specFormatDate (s : String) : String :=
  String.join (s.data.map (fun c => if c == ':' then "%3A" else String.mk [c])) ++ "Z"

/-! Helper lemmas about pages. -/

theorem mkPage_truthy (ids : List Json) (next : Bool) (nu : String) :
    (mkPage ids next nu).truthy = true := by
  cases next <;> rfl

theorem mkPage_lookup_ids (ids : List Json) (next : Bool) (nu : String) :
    (mkPage ids next nu).lookup "ids" = some (Json.arr ids) := by
  cases next <;> rfl

theorem mkPage_lookup_next_true (ids : List Json) (nu : String) :
    (mkPage ids true nu).lookup "nextRecordsUrl" = some (Json.str nu) := rfl

theorem mkPage_lookup_next_false (ids : List Json) (nu : String) :
    (mkPage ids false nu).lookup "nextRecordsUrl" = none := rfl

/-- Invariant of the pagination loop: starting from an accumulator of at most
25000 ids, a normal return also carries at most 25000 ids (the over-threshold
branch raises instead of returning). -/
theorem queryAux_returns_le (responses : List (Option Json)) :
    ∀ url acc cs, acc.length ≤ 25000 →
      queryRecentRecordsAux responses url acc = QRResult.returns cs →
      cs.length ≤ 25000 := by
  induction responses with
  | nil =>
      intro url acc cs _ hEq
      simp [queryRecentRecordsAux] at hEq
  | cons r rest ih =>
      intro url acc cs hacc hEq
      cases r with
      | none =>
          exact ih _ _ _ hacc (by simpa [queryRecentRecordsAux] using hEq)
      | some page =>
          simp only [queryRecentRecordsAux] at hEq
          by_cases ht : page.truthy
          · rw [if_pos ht] at hEq
            split at hEq
            · next ids heq =>
                by_cases hlen : (acc ++ ids).length > 25000
                · rw [if_pos hlen] at hEq; simp at hEq
                · rw [if_neg hlen] at hEq
                  have hle : (acc ++ ids).length ≤ 25000 := Nat.not_lt.mp hlen
                  split at hEq
                  · next nu hnext => exact ih _ _ _ hle hEq
                  · next hnext =>
                      injection hEq with h
                      exact h ▸ hle
            · next x heq => simp at hEq
          · rw [if_neg ht] at hEq
            exact ih _ _ _ hacc hEq

/-- C1: whenever the accumulated id count exceeds 25000 after appending a
page's ids, `query_recent_records` raises `MassUpdateException` before
returning, and it never returns a list longer than 25000 ids. -/
theorem query_recent_records_mass_update_guard (c : Conn)
    (responses : List (Option Json)) :
    (∀ cs, queryRecentRecords c responses = QRResult.returns cs →
      cs.length ≤ 25000) ∧
    (∀ (page : Json) (rest : List (Option Json)) (url : Json)
       (acc ids : List Json),
      page.truthy = true → page.lookup "ids" = some (Json.arr ids) →
      (acc ++ ids).length > 25000 →
      queryRecentRecordsAux (some page :: rest) url acc
        = QRResult.massUpdate) := by
  constructor
  · intro cs h
    exact queryAux_returns_le responses _ _ _ (by simp) h
  · intro page rest url acc ids ht hids hlen
    have hlen1 : 25000 < acc.length + ids.length := by
      simpa [List.length_append] using hlen
    simp [queryRecentRecordsAux, ht, hids, hlen1]

theorem query_recent_records_mass_update_guard_witness :
    queryRecentRecordsAux
        [some (mkPage (List.replicate 25001 (Json.str "x")) false "")]
        (Json.str "u") []
      = QRResult.massUpdate :=
  (query_recent_records_mass_update_guard
      ⟨"https://www.test_domain.com", "1.0", "obj_endpoint", "s", "e"⟩ []).2
    _ _ _ _ _ (mkPage_truthy _ _ _) (mkPage_lookup_ids _ _ _)
    (by rw [List.nil_append, List.length_replicate]; omega)

/-- Chained well-formed pages totalling at most 25000 ids: the loop returns
the accumulator followed by the concatenation of the pages, and never looks
at anything scripted after the first cursor-less page. -/
theorem queryAux_mkPages (pages : List (List Json)) :
    ∀ (url : Json) (acc : List Json) (extra : List (Option Json)),
      pages ≠ [] → (acc ++ pages.flatten).length ≤ 25000 →
      queryRecentRecordsAux (mkPages pages ++ extra) url acc
        = QRResult.returns (acc ++ pages.flatten) := by
  induction pages with
  | nil => intro _ _ _ h _; exact absurd rfl h
  | cons p rest ih =>
      intro url acc extra _ hlen
      cases rest with
      | nil =>
          have hle : acc.length + p.length ≤ 25000 := by
            simpa [List.length_append] using hlen
          simp [mkPages, queryRecentRecordsAux, mkPage_truthy, mkPage_lookup_ids,
                mkPage_lookup_next_false, hle]
      | cons q rest2 =>
          have hlen1 : ((acc ++ p) ++ (q :: rest2).flatten).length ≤ 25000 := by
            simpa [List.append_assoc] using hlen
          have hle : acc.length + p.length ≤ 25000 := by
            simp only [List.length_append] at hlen1 ⊢
            omega
          have hrec := ih (Json.str "next") (acc ++ p) extra (by simp) hlen1
          simp only [mkPages, List.cons_append]
          simp [queryRecentRecordsAux, mkPage_truthy, mkPage_lookup_ids,
                mkPage_lookup_next_true, hle, hrec, List.append_assoc]

/-- C2: for a chain of N well-formed pages (each a truthy object with an
`ids` list, all but the last carrying a `nextRecordsUrl` cursor) totalling at
most 25000 ids, `query_recent_records` returns exactly the in-order
concatenation of the pages' id lists and stops at the first page without a
cursor (any further scripted responses are never consumed). -/
theorem query_recent_records_concat (c : Conn) (pages : List (List Json))
    (extra : List (Option Json)) (hne : pages ≠ [])
    (hlen : pages.flatten.length ≤ 25000) :
    queryRecentRecords c (mkPages pages ++ extra)
      = QRResult.returns pages.flatten := by
  have h := queryAux_mkPages pages (Json.str (recentRecordsUrl c)) [] extra hne
    (by simpa using hlen)
  simpa [queryRecentRecords] using h

theorem query_recent_records_concat_witness :
    queryRecentRecords ⟨"https://www.test_domain.com", "1.0", "obj_endpoint", "s", "e"⟩
        (mkPages [[Json.str "1234"], [Json.str "abcd"]] ++ [none])
      = QRResult.returns [Json.str "1234", Json.str "abcd"] := by
  have h := query_recent_records_concat
    ⟨"https://www.test_domain.com", "1.0", "obj_endpoint", "s", "e"⟩
    [[Json.str "1234"], [Json.str "abcd"]] [none] (by simp) (by simp)
  simpa using h

/-- C3: a GET attempt answered with HTTP 401 triggers exactly one
`_refresh_token` call (`refreshCalls` grows by exactly 1 and exactly one
scripted refresh body is consumed), the stored `access_token` becomes the
refreshed value, and that loop iteration surfaces no result: the call
continues as the retry loop on the remaining attempts. -/
theorem get_or_retry_401_refresh (rest : List HttpAttempt) (body rb : Json)
    (n wait counter : Nat) (tok newTok : Json) (rbs : List Json) (k : Nat)
    (sl : List Nat) (hn : n < 3)
    (hrb : rb.lookup "access_token" = some newTok) :
    getOrRetryGo (HttpAttempt.httpError 401 body :: rest) n wait counter
        ⟨tok, rb :: rbs, k, sl⟩
      = getOrRetryGo rest (n + 1) wait counter ⟨newTok, rbs, k + 1, sl⟩ := by
  rw [getOrRetryGo]
  rw [if_neg (Nat.not_le.mpr hn)]
  simp [refreshTokenRun, hrb]

theorem get_or_retry_401_refresh_witness :
    getOrRetryGo
        [HttpAttempt.httpError 401 (Json.obj [("error", Json.str "bad token")])]
        0 10 1
        ⟨Json.str "OLD", [Json.obj [("access_token", Json.str "NEW_TOKEN")]], 0, []⟩
      = getOrRetryGo [] 1 10 1 ⟨Json.str "NEW_TOKEN", [], 1, []⟩ :=
  get_or_retry_401_refresh [] _ _ 0 10 1 _ _ [] 0 [] (by omega) rfl

/-- C4: while `get_or_retry` keeps returning `None` (falsy), the pagination
loop of `query_recent_records` makes no progress: after consuming any number
of scripted `None` results it is still looping with the same URL and the same
accumulator, and the method has not returned a list.  In the real code, where
the supply of `None` results never runs out, the method never returns. -/
theorem query_recent_records_none_diverges (c : Conn) (m : Nat) (url : Json)
    (acc : List Json) :
    queryRecentRecordsAux (List.replicate m none) url acc
        = QRResult.noMoreResponses url acc ∧
    ∀ cs, queryRecentRecords c (List.replicate m none) ≠ QRResult.returns cs := by
  have haux : ∀ (u : Json) (a : List Json),
      queryRecentRecordsAux (List.replicate m none) u a
        = QRResult.noMoreResponses u a := by
    induction m with
    | zero => intro u a; rfl
    | succ m ih =>
        intro u a
        simpa [List.replicate_succ, queryRecentRecordsAux] using ih u a
  refine ⟨haux url acc, ?_⟩
  intro cs h
  rw [queryRecentRecords, haux] at h
  exact QRResult.noConfusion h

theorem query_recent_records_none_diverges_witness :
    queryRecentRecordsAux (List.replicate 4 none) (Json.str "u") []
        = QRResult.noMoreResponses (Json.str "u") [] ∧
    queryRecentRecords ⟨"https://www.test_domain.com", "1.0", "obj_endpoint", "s", "e"⟩
        (List.replicate 4 none) ≠ QRResult.returns [] :=
  have h := query_recent_records_none_diverges
    ⟨"https://www.test_domain.com", "1.0", "obj_endpoint", "s", "e"⟩ 4
    (Json.str "u") []
  ⟨h.1, h.2 []⟩

/-- C5: `_refresh_token` with a response body containing `access_token`
replaces the stored token with exactly that value and succeeds; with a body
lacking the field it ends in `KeyError` (the single POST it makes is its only
attempt — there is no retry in the definition). -/
theorem refresh_token_update_or_keyerror (tok body : Json) :
    (∀ t, body.lookup "access_token" = some t →
      refreshTokenRun tok body = (RefreshOutcome.ok, t)) ∧
    (body.lookup "access_token" = none →
      refreshTokenRun tok body = (RefreshOutcome.keyError, tok)) := by
  constructor
  · intro t ht
    simp [refreshTokenRun, ht]
  · intro hnone
    simp [refreshTokenRun, hnone]

theorem refresh_token_update_or_keyerror_witness :
    refreshTokenRun (Json.str "OLD")
        (Json.obj [("access_token", Json.str "NEW_TOKEN")])
      = (RefreshOutcome.ok, Json.str "NEW_TOKEN") ∧
    refreshTokenRun (Json.str "OLD") (Json.obj [("error", Json.str "e")])
      = (RefreshOutcome.keyError, Json.str "OLD") :=
  ⟨(refresh_token_update_or_keyerror (Json.str "OLD")
      (Json.obj [("access_token", Json.str "NEW_TOKEN")])).1 _ rfl,
   (refresh_token_update_or_keyerror (Json.str "OLD")
      (Json.obj [("error", Json.str "e")])).2 rfl⟩

/-- C9: when the refresh response body lacks `access_token`, the lookup error
occurs before any assignment, so the stored token after the failed call is
exactly the token from before it. -/
theorem refresh_token_keyerror_keeps_token (tok body : Json)
    (h : body.lookup "access_token" = none) :
    (refreshTokenRun tok body).2 = tok ∧
    (refreshTokenRun tok body).1 = RefreshOutcome.keyError := by
  simp [refreshTokenRun, h]

theorem refresh_token_keyerror_keeps_token_witness :
    (refreshTokenRun (Json.str "LAST_GOOD")
        (Json.obj [("error", Json.str "invalid_grant")])).2 = Json.str "LAST_GOOD" ∧
    (refreshTokenRun (Json.str "LAST_GOOD")
        (Json.obj [("error", Json.str "invalid_grant")])).1
      = RefreshOutcome.keyError :=
  refresh_token_keyerror_keeps_token (Json.str "LAST_GOOD")
    (Json.obj [("error", Json.str "invalid_grant")]) rfl

/-- C6 counterexample: on two timeouts followed by a success, `get_or_retry`
sleeps 10 then 100 seconds (`wait = wait ** counter`), not 10 then 20 as the
claimed formula "wait multiplied by the attempt count (base 10, cumulative)"
predicts for the second retry. -/
theorem get_or_retry_backoff_counterexample :
    (get_or_retry "https://www.test_domain.com"
        [HttpAttempt.timeout, HttpAttempt.timeout,
         HttpAttempt.success (Json.obj [("ids", Json.arr [])])]
        ⟨Json.str "tok", [], 0, []⟩).2.sleeps = [10, 100] ∧
    [10, 100] ≠ [10, 10 * 2] :=
  ⟨rfl, by decide⟩

/-- C6 (amended): `get_or_retry` retries up to 3 total attempts on timeout;
before each retry it sleeps `wait = wait ** counter` with `wait` starting at
10 and `counter` at 1 and incremented per retry — so the sleeps are 10 and
then 100 — and it re-raises the timeout on the third consecutive timeout. -/
theorem get_or_retry_backoff (u : String) (b : Json) (rest : List HttpAttempt)
    (tok : Json) (rbs : List Json) (k : Nat) (sl : List Nat) :
    get_or_retry u (HttpAttempt.success b :: rest) ⟨tok, rbs, k, sl⟩
      = (GetOutcome.ok b, ⟨tok, rbs, k, sl⟩) ∧
    get_or_retry u (HttpAttempt.timeout :: HttpAttempt.success b :: rest)
        ⟨tok, rbs, k, sl⟩
      = (GetOutcome.ok b, ⟨tok, rbs, k, sl ++ [10]⟩) ∧
    get_or_retry u (HttpAttempt.timeout :: HttpAttempt.timeout ::
          HttpAttempt.success b :: rest) ⟨tok, rbs, k, sl⟩
      = (GetOutcome.ok b, ⟨tok, rbs, k, sl ++ [10, 100]⟩) ∧
    get_or_retry u (HttpAttempt.timeout :: HttpAttempt.timeout ::
          HttpAttempt.timeout :: rest) ⟨tok, rbs, k, sl⟩
      = (GetOutcome.raiseTimeout, ⟨tok, rbs, k, sl ++ [10, 100]⟩) := by
  refine ⟨rfl, ?_, ?_, ?_⟩ <;>
    simp [get_or_retry, getOrRetryGo, List.append_assoc]

/-- C7: `query_single_object` returns the fetched record exactly when the GET
produced a truthy body containing the `Id` key; a truthy body without `Id`,
or a `None` result from `get_or_retry`, yields no record — the two cases are
indistinguishable to the caller. -/
theorem query_single_object_found_iff (c : Conn) (sfid : String)
    (attempts : List HttpAttempt) (s : GetState) :
    (∀ body s1,
      get_or_retry (singleObjectUrl c sfid) attempts s
          = (GetOutcome.ok body, s1) →
      ((querySingleObject c sfid attempts s = (QSOOutcome.found body, s1)) ↔
        (body.truthy && body.hasKey "Id") = true) ∧
      ((body.truthy && body.hasKey "Id") = false →
        querySingleObject c sfid attempts s = (QSOOutcome.noRecord, s1))) ∧
    (∀ s1,
      get_or_retry (singleObjectUrl c sfid) attempts s
          = (GetOutcome.retNone, s1) →
      querySingleObject c sfid attempts s = (QSOOutcome.noRecord, s1)) := by
  constructor
  · intro body s1 h
    constructor
    · cases hcond : body.truthy && body.hasKey "Id" <;>
        simp [querySingleObject, h, hcond]
    · intro hcond
      simp [querySingleObject, h, hcond]
  · intro s1 h
    simp [querySingleObject, h]

theorem query_single_object_found_iff_witness :
    querySingleObject ⟨"https://www.test_domain.com", "1.0", "obj_endpoint", "s", "e"⟩
        "1234"
        [HttpAttempt.success
          (Json.obj [("Id", Json.str "1234"), ("data", Json.str "value1")])]
        ⟨Json.str "tok", [], 0, []⟩
      = (QSOOutcome.found
          (Json.obj [("Id", Json.str "1234"), ("data", Json.str "value1")]),
         ⟨Json.str "tok", [], 0, []⟩) :=
  ((query_single_object_found_iff
      ⟨"https://www.test_domain.com", "1.0", "obj_endpoint", "s", "e"⟩ "1234"
      [HttpAttempt.success
        (Json.obj [("Id", Json.str "1234"), ("data", Json.str "value1")])]
      ⟨Json.str "tok", [], 0, []⟩).1
    (Json.obj [("Id", Json.str "1234"), ("data", Json.str "value1")])
    ⟨Json.str "tok", [], 0, []⟩ rfl).1.mpr rfl

/-- C8: when a POST attempt of `create_sf_record` succeeds (possibly after up
to two timeouts), the method returns the value of the `success` field of the
response body; when a PATCH attempt of `update_sf_record` succeeds, the
method returns `True`. -/
theorem create_update_success (k : Nat) (body v : Json)
    (rest : List PostAttempt) (hk : k < 3)
    (hv : body.lookup "success" = some v) :
    (createSfRecord (List.replicate k PostAttempt.timeout
        ++ PostAttempt.success body :: rest)).1 = CreateOutcome.returns v ∧
    (updateSfRecord (List.replicate k PostAttempt.timeout
        ++ PostAttempt.success body :: rest)).1 = UpdateOutcome.returnsTrue := by
  interval_cases k <;>
    simp [createSfRecord, createGo, updateSfRecord, updateGo, hv,
      List.replicate]

theorem create_update_success_witness :
    (createSfRecord [PostAttempt.timeout,
        PostAttempt.success (Json.obj [("success", Json.bool true)])]).1
      = CreateOutcome.returns (Json.bool true) ∧
    (updateSfRecord [PostAttempt.timeout,
        PostAttempt.success (Json.obj [("success", Json.bool true)])]).1
      = UpdateOutcome.returnsTrue := by
  have h := create_update_success 1 (Json.obj [("success", Json.bool true)])
    (Json.bool true) [] (by omega) rfl
  simpa [List.replicate] using h

/-! Helper lemmas for the date formatter. -/

theorem iso_char_ne_dot (c : Char)
    (h : c.isDigit = true ∨ c = '-' ∨ c = 'T' ∨ c = ':') :
    (c != '.') = true := by
  rcases h with h | h | h | h
  · by_cases hc : c = '.'
    · subst hc; exact absurd h (by decide)
    · simp [hc]
  · subst h; decide
  · subst h; decide
  · subst h; decide

theorem quotePlusChar_iso (c : Char)
    (h : c.isDigit = true ∨ c = '-' ∨ c = 'T' ∨ c = ':') :
    quotePlusChar c = (if c == ':' then "%3A" else String.mk [c]) := by
  rcases h with h | h | h | h
  · have hsafe : alwaysSafe c = true := by simp [alwaysSafe, h]
    have hne : (c == ':') = false := by
      by_cases hc : c = ':'
      · subst hc; exact absurd h (by decide)
      · simp [hc]
    simp [quotePlusChar, hsafe, hne]
  · subst h; rfl
  · subst h; rfl
  · subst h; rfl

theorem takeWhile_append_dot (cs ds : List Char)
    (h : ∀ c ∈ cs, (c != '.') = true) :
    (cs ++ '.' :: ds).takeWhile (fun c => c != '.') = cs := by
  induction cs with
  | nil => simp [List.takeWhile]
  | cons a as ih =>
      have ha := h a (by simp)
      simp [List.takeWhile_cons, ha, ih (fun c hc => h c (by simp [hc]))]

/-- C10: on any string made of digits, `-`, `T` and `:` (a seconds-precision
ISO-8601 timestamp), `_format_date` yields the same string with each `:`
percent-encoded as `%3A` and a `Z` appended; any `.`-separated
fractional-second suffix is truncated first. -/
theorem format_date_iso (s frac : String)
    (hs : ∀ c ∈ s.data, c.isDigit = true ∨ c = '-' ∨ c = 'T' ∨ c = ':') :
    format_date s = specFormatDate s ∧
    format_date (s ++ "." ++ frac) = specFormatDate s := by
  have hnd : ∀ c ∈ s.data, (c != '.') = true :=
    fun c hc => iso_char_ne_dot c (hs c hc)
  have hmap : s.data.map quotePlusChar
      = s.data.map (fun c => if c == ':' then "%3A" else String.mk [c]) :=
    List.map_congr_left fun c hc => quotePlusChar_iso c (hs c hc)
  have hsplit1 : splitDotHead s = s := by
    rw [splitDotHead, List.takeWhile_eq_self_iff.mpr hnd]
  have hdata : (s ++ "." ++ frac).data = s.data ++ '.' :: frac.data := by
    rw [String.data_append, String.data_append, List.append_assoc]
    rfl
  have hsplit2 : splitDotHead (s ++ "." ++ frac) = s := by
    rw [splitDotHead, hdata, takeWhile_append_dot s.data frac.data hnd]
  constructor
  · rw [format_date, hsplit1, specFormatDate, quote_plus, hmap]
  · rw [format_date, hsplit2, specFormatDate, quote_plus, hmap]

theorem format_date_iso_witness :
    (format_date "2016-01-02T03:04:05" = specFormatDate "2016-01-02T03:04:05" ∧
     format_date ("2016-01-02T03:04:05" ++ "." ++ "123456")
       = specFormatDate "2016-01-02T03:04:05") ∧
    specFormatDate "2016-01-02T03:04:05" = "2016-01-02T03%3A04%3A05Z" :=
  ⟨format_date_iso "2016-01-02T03:04:05" "123456" (by decide), by decide⟩

end Salesforce
